import Mathlib

/-!
# Shallow embedding of the fastapi_ecommerce checkout / cart / review core

This file embeds the business logic of the repository's route handlers
(`app/routers/orders.py`, `app/routers/carts.py`, `app/routers/reviews.py`,
`app/routers/products.py`) over an explicit database-state record.

Modelling decisions:
* SQL `DECIMAL` prices and amounts are exact rationals (`ℚ`);
* integer columns are `Int` (stock, grade) or `Nat` (ids, quantities);
* nullable columns are `Option`; in particular `Product.is_active` is an
  `Option Bool` since `orders.py` tests `product.is_active is None`;
* a route handler is a function `... → State → Except ApiError (result × State)`;
  an uncommitted session is discarded when an `HTTPException` is raised before
  `db.commit()`, so the error branch carries no new state — the post-state of a
  failed call is the pre-state (helpers `*State` below realise this reading);
* ORM attribute mutation on an identity-mapped row (`product.stock -= q`,
  `cart_item.quantity += q`, `review.is_active = False`) updates the *first*
  row found by the corresponding `select ... .first()`, while a SQL
  `UPDATE ... WHERE id == pid` (`reviews.py: recalculate_product_rating`)
  updates *every* row matching the predicate;
* `created_at` / `comment_date` timestamps are irrelevant to every claim and
  are omitted from the records.
-/

/-- Row of `app/models/products.py`: id, name, nullable decimal price, integer
stock, nullable boolean soft-delete flag, nullable derived rating, category. -/
structure Product where
  id : Nat
  name : String
  price : Option ℚ
  stock : Int
  is_active : Option Bool
  rating : Option ℚ
  category_id : Option Nat
deriving DecidableEq, Repr

/-- Row of `app/models/categories.py` (as used by `products.py`): id and
soft-delete flag. -/
structure Category where
  id : Nat
  is_active : Bool
deriving DecidableEq, Repr

/-- Row of `app/models/cart_items.py`: surrogate id, (user, product) pair,
positive quantity. -/
structure CartItem where
  id : Nat
  user_id : Nat
  product_id : Nat
  quantity : Nat
deriving DecidableEq, Repr

/-- Row of `app/models/orders.py` `OrderItem`: product reference, quantity,
unit-price snapshot and line total, both copied at checkout time. -/
structure OrderItem where
  product_id : Nat
  quantity : Nat
  unit_price : ℚ
  total_price : ℚ
deriving DecidableEq, Repr

/-- Row of `app/models/orders.py` `Order` with its owned items. -/
structure Order where
  id : Nat
  user_id : Nat
  total_amount : ℚ
  items : List OrderItem
deriving DecidableEq, Repr

/-- Row of `app/models/reviews.py`: user + product reference, grade, comment,
soft-delete flag. -/
structure Review where
  id : Nat
  user_id : Nat
  product_id : Nat
  grade : Int
  comment : Option String
  is_active : Bool
deriving DecidableEq, Repr

/-- The database state the routers read and write, plus fresh-id counters for
autoincrement primary keys. -/
structure State where
  products : List Product
  categories : List Category
  cart_items : List CartItem
  orders : List Order
  reviews : List Review
  next_order_id : Nat
  next_cart_item_id : Nat
  next_review_id : Nat
deriving DecidableEq, Repr

/-- The `HTTPException`s raised by the embedded handlers, keyed by the
business meaning of their `detail` strings. -/
inductive ApiError where
  /-- orders.py line 39: "Корзина пуста" (cart is empty). -/
  | emptyCart
  /-- orders.py line 47: "Продукт {id} недоступен" (product unavailable). -/
  | productUnavailable (product_id : Nat)
  /-- orders.py line 49: "Недостаточно товара на складе {name}". -/
  | insufficientStock (product_name : String)
  /-- orders.py line 53: "Цена на товар {name} не установлена". -/
  | priceMissing (product_name : String)
  /-- 404 "не найден" responses. -/
  | notFound
  /-- 403 role-mismatch responses. -/
  | forbidden
  /-- products.py `get_product` line 195: 400 "Категория не найдена". -/
  | categoryNotFound
deriving DecidableEq, Repr

/-- Lookup `select(Product).where(Product.id == pid)` resolved through the session's
identity map: the first row with the given primary key. -/
def findProduct (ps : List Product) (pid : Nat) : Option Product :=
  ps.find? (fun p => p.id == pid)

/-- ORM mutation `product.stock -= q` on the identity-mapped row with id
`pid` (orders.py line 65): only the first matching row changes. -/
def decStock : List Product → Nat → Nat → List Product
  | [], _, _ => []
  | p :: ps, pid, q =>
    if p.id == pid then { p with stock := p.stock - (q : Int) } :: ps
    else p :: decStock ps pid q

/-- orders.py line 38: `cart_items` is the result of `Result.all()`, a Python
list, and `list is None` is always `False` — the emptiness guard is dead. -/
def pyListIsNone (l : List CartItem) : Bool :=
  match l with
  | _ => false

/-- The per-line loop of `checkout_order` (orders.py lines 44–65): validate the
line against the current product state, snapshot the price, accumulate the
total and the order items, and decrement stock, line by line. -/
def processCart : List CartItem → List Product → ℚ → List OrderItem →
    Except ApiError (List Product × ℚ × List OrderItem)
  | [], ps, total, items => .ok (ps, total, items)
  | ci :: rest, ps, total, items =>
    match findProduct ps ci.product_id with
    | none => .error (.productUnavailable ci.product_id)
    | some p =>
      -- line 46: `if product is None or product.is_active is None`
      if p.is_active = none then .error (.productUnavailable ci.product_id)
      else if p.stock < (ci.quantity : Int) then .error (.insufficientStock p.name)
      else
        match p.price with
        | none => .error (.priceMissing p.name)
        | some unit_price =>
          let total_price := unit_price * (ci.quantity : ℚ)
          processCart rest (decStock ps ci.product_id ci.quantity)
            (total + total_price)
            (items ++ [⟨ci.product_id, ci.quantity, unit_price, total_price⟩])

/-- Handler `checkout_order` (orders.py lines 27–77): load the user's cart lines,
run the dead emptiness guard, process every line, append the order, delete the
user's cart rows, and commit.  An error raised before `db.commit()` leaves the
database untouched, hence the error branches return no state. -/
def checkout_order (uid : Nat) (s : State) : Except ApiError (Order × State) :=
  let cart := s.cart_items.filter (fun ci => ci.user_id == uid)
  if pyListIsNone cart then .error .emptyCart
  else
    match processCart cart s.products 0 [] with
    | .error e => .error e
    | .ok (ps, total_amount, items) =>
      let order : Order := ⟨s.next_order_id, uid, total_amount, items⟩
      .ok (order,
        { s with
          products := ps
          orders := s.orders ++ [order]
          cart_items := s.cart_items.filter (fun ci => ci.user_id != uid)
          next_order_id := s.next_order_id + 1 })

/-- The database state after a `checkout_order` call: the new state on
success, the unchanged pre-state when an `HTTPException` aborted the
uncommitted session. -/
def checkoutState (uid : Nat) (s : State) : State :=
  match checkout_order uid s with
  | .ok (_, s') => s'
  | .error _ => s

/-- Lookup `select(Product).where(Product.id == pid, Product.is_active == True)`:
the availability lookup shared by carts.py and reviews.py; a row qualifies
only when the nullable flag is literally TRUE. -/
def findActiveProduct (ps : List Product) (pid : Nat) : Option Product :=
  ps.find? (fun p => p.id == pid && p.is_active == some true)

/-- Helper `_ensure_product_available` (carts.py lines 23–27). -/
def ensureProductAvailable (ps : List Product) (pid : Nat) : Except ApiError Unit :=
  match findActiveProduct ps pid with
  | none => .error .notFound
  | some _ => .ok ()

/-- Helper `_get_cart_item` (carts.py lines 30–35): first row for (user, product). -/
def getCartItem (items : List CartItem) (uid pid : Nat) : Option CartItem :=
  items.find? (fun ci => ci.user_id == uid && ci.product_id == pid)

/-- ORM mutation `cart_item.quantity += q` (carts.py line 69) on the
identity-mapped first (user, product) row. -/
def bumpQuantity : List CartItem → Nat → Nat → Nat → List CartItem
  | [], _, _, _ => []
  | ci :: cis, uid, pid, q =>
    if ci.user_id == uid && ci.product_id == pid then
      { ci with quantity := ci.quantity + q } :: cis
    else ci :: bumpQuantity cis uid pid q

/-- Handler `add_item_to_cart` (carts.py lines 63–80): check availability, then either
increment the existing (user, product) line or insert a fresh row, commit, and
re-query the line (the handler returns the re-queried row, which Python types
as possibly `None`). -/
def add_item_to_cart (uid pid qty : Nat) (s : State) :
    Except ApiError (Option CartItem × State) :=
  match ensureProductAvailable s.products pid with
  | .error e => .error e
  | .ok _ =>
    match getCartItem s.cart_items uid pid with
    | some _ =>
      let s' := { s with cart_items := bumpQuantity s.cart_items uid pid qty }
      .ok (getCartItem s'.cart_items uid pid, s')
    | none =>
      let new_item : CartItem := ⟨s.next_cart_item_id, uid, pid, qty⟩
      let s' := { s with
        cart_items := s.cart_items ++ [new_item]
        next_cart_item_id := s.next_cart_item_id + 1 }
      .ok (getCartItem s'.cart_items uid pid, s')

/-- The `CartSchema` response shape built by `get_carts`. -/
structure CartSchema where
  user_id : Nat
  items : List CartItem
  total_quantity : Nat
  total_price : ℚ
deriving DecidableEq, Repr

/-- Handler `get_carts` (carts.py lines 38–60): the user's lines joined to the live
product rows; a line whose product price is unset contributes 0 to the total
(line 50; a dangling product reference would fault in Python and is likewise
mapped to 0 here). -/
def get_carts (uid : Nat) (s : State) : CartSchema :=
  let items := s.cart_items.filter (fun ci => ci.user_id == uid)
  { user_id := uid
    items := items
    total_quantity := (items.map CartItem.quantity).sum
    total_price := (items.map (fun ci =>
      (ci.quantity : ℚ) *
        (((findProduct s.products ci.product_id).bind Product.price).getD 0))).sum }

/-- Python `round(x, 2)` rounds half to even; this is its integer core applied
to `100 * x` by `round2`. -/
def roundHalfEven (x : ℚ) : ℤ :=
  let f := ⌊x⌋
  let r := x - (f : ℚ)
  if r < 1 / 2 then f
  else if 1 / 2 < r then f + 1
  else if f % 2 = 0 then f else f + 1

/-- Value `Decimal(str(round(avg_grade, 2)))` (reviews.py line 58): the exact value
rounded to two decimal places. -/
def round2 (x : ℚ) : ℚ :=
  (roundHalfEven (100 * x) : ℚ) / 100

/-- The grades selected by
`select(func.avg(Review.grade)).where(product_id == pid, is_active.is_(True))`. -/
def activeGrades (reviews : List Review) (pid : Nat) : List Int :=
  (reviews.filter (fun r => r.product_id == pid && r.is_active)).map Review.grade

/-- Aggregate `func.avg` over those grades: `NULL` on an empty set, else the exact
arithmetic mean. -/
def avgGrade (reviews : List Review) (pid : Nat) : Option ℚ :=
  let gs := activeGrades reviews pid
  if gs.isEmpty then none
  else some ((gs.map (fun g => (g : ℚ))).sum / (gs.length : ℚ))

/-- SQL `UPDATE products SET rating = r WHERE products.id == pid`
(reviews.py lines 60–64): every row matching the predicate is updated. -/
def setRating (ps : List Product) (pid : Nat) (r : Option ℚ) : List Product :=
  ps.map (fun p => if p.id == pid then { p with rating := r } else p)

/-- Helper `recalculate_product_rating` (reviews.py lines 47–64). -/
def recalculate_product_rating (pid : Nat) (ps : List Product)
    (reviews : List Review) : List Product :=
  setRating ps pid ((avgGrade reviews pid).map round2)

/-- Handler `create_review` (reviews.py lines 67–107): only role "buyer" may post;
the product must exist and be active; the review is inserted with
`is_active=True` and the rating is recomputed in the same transaction
(session autoflush makes the aggregate query see the pending insert). -/
def create_review (uid : Nat) (role : String) (pid : Nat) (grade : Int)
    (comment : Option String) (s : State) : Except ApiError (Review × State) :=
  if role ≠ "buyer" then .error .forbidden
  else
    match findActiveProduct s.products pid with
    | none => .error .notFound
    | some _ =>
      let new_review : Review := ⟨s.next_review_id, uid, pid, grade, comment, true⟩
      let reviews' := s.reviews ++ [new_review]
      .ok (new_review,
        { s with
          reviews := reviews'
          products := recalculate_product_rating pid s.products reviews'
          next_review_id := s.next_review_id + 1 })

/-- ORM flag flip `review.is_active = False` (reviews.py line 131) on the
identity-mapped first active row with the given id. -/
def softDeleteReview : List Review → Nat → List Review
  | [], _ => []
  | r :: rs, rid =>
    if r.id == rid && r.is_active then { r with is_active := false } :: rs
    else r :: softDeleteReview rs rid

/-- Handler `delete_review` (reviews.py lines 110–137): only role "admin" may delete;
the review must exist and be active; deletion is a soft flag flip followed by
a rating recomputation that sees the flip (session autoflush). -/
def delete_review (role : String) (rid : Nat) (s : State) :
    Except ApiError State :=
  if role ≠ "admin" then .error .forbidden
  else
    match s.reviews.find? (fun r => r.id == rid && r.is_active) with
    | none => .error .notFound
    | some review =>
      let reviews' := softDeleteReview s.reviews rid
      .ok { s with
        reviews := reviews'
        products := recalculate_product_rating review.product_id s.products reviews' }

/-- The database state after `create_review`: unchanged when the handler
raised before commit. -/
def createReviewState (uid : Nat) (role : String) (pid : Nat) (grade : Int)
    (comment : Option String) (s : State) : State :=
  match create_review uid role pid grade comment s with
  | .ok (_, s') => s'
  | .error _ => s

/-- The database state after `delete_review`: unchanged when the handler
raised before commit. -/
def deleteReviewState (role : String) (rid : Nat) (s : State) : State :=
  match delete_review role rid s with
  | .ok s' => s'
  | .error _ => s

/-- Handler `get_product` (products.py lines 181–197): the detail query filters on
`id == pid`, `is_active == True` and `stock > 0`; a miss is a 404, and a
missing or inactive category of a found product is a 400. -/
def get_product (pid : Nat) (s : State) : Except ApiError Product :=
  match s.products.find? (fun p =>
      p.id == pid && p.is_active == some true && decide ((0 : Int) < p.stock)) with
  | none => .error .notFound
  | some p =>
    match s.categories.find? (fun c => p.category_id == some c.id && c.is_active) with
    | none => .error .categoryNotFound
    | some _ => .ok p

/-- The price snapshot a checkout line receives: the current price of the
line's product (`0` stands for the impossible dangling/unset cases, which the
valid-line hypotheses of the theorems below exclude). -/
def unitPriceOf (ps : List Product) (ci : CartItem) : ℚ :=
  ((findProduct ps ci.product_id).bind Product.price).getD 0

/-- The order lines a valid cart produces: for each cart line, the product
reference, the quantity, the unit-price snapshot and the line total
`unit_price × quantity`. -/
def orderItemsOf (ps : List Product) (cart : List CartItem) : List OrderItem :=
  cart.map (fun ci =>
    ⟨ci.product_id, ci.quantity, unitPriceOf ps ci,
      unitPriceOf ps ci * (ci.quantity : ℚ)⟩)

/-- The spec's order total: the sum of `unit_price × quantity` over the cart
lines. -/
def lineTotalSum (ps : List Product) (cart : List CartItem) : ℚ :=
  (cart.map (fun ci => unitPriceOf ps ci * (ci.quantity : ℚ))).sum

/-- The spec's per-line validation: the product exists and is active, stock
covers the requested quantity, and the price is set. -/
def lineValid (ps : List Product) (ci : CartItem) : Bool :=
  match findProduct ps ci.product_id with
  | none => false
  | some p =>
    p.is_active == some true && decide ((ci.quantity : Int) ≤ p.stock)
      && p.price.isSome

/-- The outcome of the per-line checks of `checkout_order`
(orders.py lines 44–53), in the order the code performs them: `none` when the
line passes, otherwise the `HTTPException` the line raises. -/
def lineError (ps : List Product) (ci : CartItem) : Option ApiError :=
  match findProduct ps ci.product_id with
  | none => some (.productUnavailable ci.product_id)
  | some p =>
    if p.is_active = none then some (.productUnavailable ci.product_id)
    else if p.stock < (ci.quantity : Int) then some (.insufficientStock p.name)
    else if p.price = none then some (.priceMissing p.name)
    else none

/-- The spec's rating formula: unset when no active review remains, else the
arithmetic mean of the grades rounded to two decimal places. -/
def ratingFromGrades (gs : List Int) : Option ℚ :=
  if gs.isEmpty then none
  else some (round2 ((gs.map (fun g => (g : ℚ))).sum / (gs.length : ℚ)))

/-- The database state after `add_item_to_cart`: unchanged when the handler
raised before commit. -/
def addItemState (uid pid qty : Nat) (s : State) : State :=
  match add_item_to_cart uid pid qty s with
  | .ok (_, s') => s'
  | .error _ => s

/-- The order a successful `checkout_order` call returns (a placeholder
order on failure); used to name the computed result in concrete witnesses. -/
def checkoutOrderOf (uid : Nat) (s : State) : Order :=
  match checkout_order uid s with
  | .ok (o, _) => o
  | .error _ => ⟨0, 0, 0, []⟩

/-- The review a successful `create_review` call returns (a placeholder on
failure); used to name the computed result in concrete witnesses. -/
def createdReviewOf (uid : Nat) (role : String) (pid : Nat) (grade : Int)
    (comment : Option String) (s : State) : Review :=
  match create_review uid role pid grade comment s with
  | .ok (r, _) => r
  | .error _ => ⟨0, 0, 0, 0, none, true⟩

/-- The re-queried cart line a successful `add_item_to_cart` call returns
(`none` on failure); used to name the computed result in concrete
witnesses. -/
def addedItemOf (uid pid qty : Nat) (s : State) : Option CartItem :=
  match add_item_to_cart uid pid qty s with
  | .ok (c, _) => c
  | .error _ => none

/-- The spec's worked checkout example: product A costs 10.00 (stock 5),
product B costs 5.50 (stock 4); user 7's cart holds A×2 and B×1, user 8's
cart is empty. -/
def productA : Product := ⟨1, "A", some 10, 5, some true, none, some 1⟩

/-- Second product of the worked example. -/
def productB : Product := ⟨2, "B", some (11 / 2), 4, some true, none, some 1⟩

/-- Database state of the worked checkout example. -/
def exState : State :=
  ⟨[productA, productB], [⟨1, true⟩], [⟨10, 7, 1, 2⟩, ⟨11, 7, 2, 1⟩],
    [], [], 100, 20, 30⟩

/-- One-line cart used for the post-checkout cart-emptiness witness. -/
def oneLineState : State :=
  ⟨[productA], [⟨1, true⟩], [⟨10, 7, 1, 1⟩], [], [], 100, 20, 30⟩

/-- The spec's insufficient-stock example: product A has stock 1 and user 7's
cart asks for 3. -/
def lowStockProduct : Product := ⟨1, "A", some 10, 1, some true, none, none⟩

/-- Database state of the insufficient-stock example. -/
def lowStockState : State :=
  ⟨[lowStockProduct], [], [⟨10, 7, 1, 3⟩], [], [], 100, 20, 30⟩

/-- A cart whose first line has an unset price and whose second line asks for
more than the stock: the price error fires before the stock error is ever
reached. -/
def precedenceState : State :=
  ⟨[⟨1, "A", none, 10, some true, none, none⟩,
    ⟨2, "B", some 5, 1, some true, none, none⟩],
   [], [⟨10, 7, 1, 1⟩, ⟨11, 7, 2, 3⟩], [], [], 100, 20, 30⟩

/-- A deactivated product (`is_active = FALSE`) with stock and price set,
sitting in user 7's cart. -/
def inactiveProduct : Product := ⟨1, "A", some 10, 5, some false, none, none⟩

/-- Database state with the deactivated product in the cart. -/
def inactiveState : State :=
  ⟨[inactiveProduct], [], [⟨10, 7, 1, 2⟩], [], [], 100, 20, 30⟩

/-- An active product carrying one active grade-4 review by user 9. -/
def reviewState : State :=
  ⟨[productA], [], [], [], [⟨1, 9, 1, 4, none, true⟩], 100, 20, 30⟩

/-- An active catalog product whose stock has run out. -/
def zeroStockState : State :=
  ⟨[⟨1, "A", some 10, 0, some true, none, some 1⟩], [⟨1, true⟩],
    [], [], [], 1, 1, 1⟩

/-- An available product and an empty cart, for the idempotent-add witness. -/
def cartAddState : State :=
  ⟨[productA], [⟨1, true⟩], [], [], [], 1, 20, 1⟩

/-! ## Helper lemmas -/

theorem findProduct_decStock_self (ps : List Product) (pid : Nat) (q : Nat) :
    findProduct (decStock ps pid q) pid
      = (findProduct ps pid).map (fun p => { p with stock := p.stock - (q : Int) }) := by
  induction ps with
  | nil => rfl
  | cons p ps ih =>
    simp only [findProduct] at ih ⊢
    by_cases h : p.id = pid
    · simp only [decStock, if_pos (show (p.id == pid) = true by simp [h])]
      rw [List.find?_cons_of_pos _ (by simp [h]), List.find?_cons_of_pos _ (by simp [h])]
      simp
    · simp only [decStock, if_neg (show ¬ (p.id == pid) = true by simp [h])]
      rw [List.find?_cons_of_neg _ (by simp [h]), List.find?_cons_of_neg _ (by simp [h])]
      exact ih

theorem findProduct_decStock_ne (ps : List Product) (pid pid' : Nat) (q : Nat)
    (h : pid' ≠ pid) :
    findProduct (decStock ps pid q) pid' = findProduct ps pid' := by
  induction ps with
  | nil => rfl
  | cons p ps ih =>
    simp only [findProduct] at ih ⊢
    by_cases hp : p.id = pid
    · simp only [decStock, if_pos (show (p.id == pid) = true by simp [hp])]
      rw [List.find?_cons_of_neg _ (by simp [hp]; omega),
        List.find?_cons_of_neg _ (by simp [hp]; omega)]
    · simp only [decStock, if_neg (show ¬ (p.id == pid) = true by simp [hp])]
      by_cases hp' : p.id = pid'
      · rw [List.find?_cons_of_pos _ (by simp [hp']), List.find?_cons_of_pos _ (by simp [hp'])]
      · rw [List.find?_cons_of_neg _ (by simp [hp']), List.find?_cons_of_neg _ (by simp [hp'])]
        exact ih

theorem lineError_congr (ps ps' : List Product) (ci : CartItem)
    (h : findProduct ps ci.product_id = findProduct ps' ci.product_id) :
    lineError ps ci = lineError ps' ci := by
  simp only [lineError, h]

theorem unitPriceOf_congr (ps ps' : List Product) (ci : CartItem)
    (h : findProduct ps ci.product_id = findProduct ps' ci.product_id) :
    unitPriceOf ps ci = unitPriceOf ps' ci := by
  simp only [unitPriceOf, h]

theorem lineTotalSum_congr (ps ps' : List Product) (cart : List CartItem)
    (h : ∀ ci ∈ cart, findProduct ps ci.product_id = findProduct ps' ci.product_id) :
    lineTotalSum ps cart = lineTotalSum ps' cart := by
  unfold lineTotalSum
  congr 1
  exact List.map_congr_left (fun ci hci => by
    rw [unitPriceOf_congr ps ps' ci (h ci hci)])

theorem orderItemsOf_congr (ps ps' : List Product) (cart : List CartItem)
    (h : ∀ ci ∈ cart, findProduct ps ci.product_id = findProduct ps' ci.product_id) :
    orderItemsOf ps cart = orderItemsOf ps' cart := by
  unfold orderItemsOf
  exact List.map_congr_left (fun ci hci => by
    rw [unitPriceOf_congr ps ps' ci (h ci hci)])

theorem processCart_ok (cart : List CartItem) :
    ∀ (ps : List Product) (total : ℚ) (items : List OrderItem),
    (cart.map CartItem.product_id).Nodup →
    (∀ ci ∈ cart, lineError ps ci = none) →
    ∃ ps',
      processCart cart ps total items
        = .ok (ps', total + lineTotalSum ps cart, items ++ orderItemsOf ps cart) ∧
      (∀ ci ∈ cart, findProduct ps' ci.product_id
          = (findProduct ps ci.product_id).map
              (fun p => { p with stock := p.stock - (ci.quantity : Int) })) ∧
      (∀ pid, pid ∉ cart.map CartItem.product_id →
          findProduct ps' pid = findProduct ps pid) := by
  induction cart with
  | nil =>
    intro ps total items _ _
    exact ⟨ps, by simp [processCart, lineTotalSum, orderItemsOf],
      by simp, fun _ _ => rfl⟩
  | cons ci rest ih =>
    intro ps total items hnodup hok
    have hci := hok ci (List.mem_cons_self ci rest)
    cases hfind : findProduct ps ci.product_id with
    | none => simp [lineError, hfind] at hci
    | some p =>
      simp only [lineError, hfind] at hci
      by_cases hact : p.is_active = none
      · simp [hact] at hci
      rw [if_neg hact] at hci
      by_cases hstk : p.stock < (ci.quantity : Int)
      · simp [hstk] at hci
      rw [if_neg hstk] at hci
      cases hup : p.price with
      | none => simp [hup] at hci
      | some up =>
      have hnotmem : ci.product_id ∉ rest.map CartItem.product_id :=
        (List.nodup_cons.mp (by simpa using hnodup)).1
      have hnodup' : (rest.map CartItem.product_id).Nodup :=
        (List.nodup_cons.mp (by simpa using hnodup)).2
      have hne : ∀ cj ∈ rest, cj.product_id ≠ ci.product_id := by
        intro cj hcj heq
        exact hnotmem (heq ▸ List.mem_map_of_mem CartItem.product_id hcj)
      have hfind_eq : ∀ cj ∈ rest,
          findProduct (decStock ps ci.product_id ci.quantity) cj.product_id
            = findProduct ps cj.product_id := by
        intro cj hcj
        exact findProduct_decStock_ne ps ci.product_id cj.product_id ci.quantity
          (hne cj hcj)
      have hok' : ∀ cj ∈ rest,
          lineError (decStock ps ci.product_id ci.quantity) cj = none := by
        intro cj hcj
        rw [lineError_congr _ ps cj (hfind_eq cj hcj)]
        exact hok cj (List.mem_cons_of_mem ci hcj)
      obtain ⟨ps', heq, hdec, hother⟩ :=
        ih (decStock ps ci.product_id ci.quantity) (total + up * (ci.quantity : ℚ))
          (items ++ [⟨ci.product_id, ci.quantity, up, up * (ci.quantity : ℚ)⟩])
          hnodup' hok'
      have hup_eq : unitPriceOf ps ci = up := by
        simp [unitPriceOf, hfind, hup]
      refine ⟨ps', ?_, ?_, ?_⟩
      · have hstep : processCart (ci :: rest) ps total items
            = processCart rest (decStock ps ci.product_id ci.quantity)
                (total + up * (ci.quantity : ℚ))
                (items ++ [⟨ci.product_id, ci.quantity, up, up * (ci.quantity : ℚ)⟩]) := by
          simp only [processCart, hfind, hup]
          rw [if_neg hact, if_neg hstk]
        rw [hstep, heq]
        have h1 : lineTotalSum (decStock ps ci.product_id ci.quantity) rest
            = lineTotalSum ps rest := lineTotalSum_congr _ _ _ hfind_eq
        have h2 : orderItemsOf (decStock ps ci.product_id ci.quantity) rest
            = orderItemsOf ps rest := orderItemsOf_congr _ _ _ hfind_eq
        rw [h1, h2]
        have h3 : lineTotalSum ps (ci :: rest)
            = up * (ci.quantity : ℚ) + lineTotalSum ps rest := by
          simp [lineTotalSum, hup_eq]
        have h4 : orderItemsOf ps (ci :: rest)
            = ⟨ci.product_id, ci.quantity, up, up * (ci.quantity : ℚ)⟩
                :: orderItemsOf ps rest := by
          simp [orderItemsOf, hup_eq]
        rw [h3, h4, add_assoc]
        simp
      · intro cj hcj
        rcases List.mem_cons.mp hcj with hcj | hcj
        · subst hcj
          rw [hother cj.product_id hnotmem,
            findProduct_decStock_self ps cj.product_id cj.quantity, hfind]
        · rw [hdec cj hcj, hfind_eq cj hcj]
      · intro pid hpid
        have hpid_rest : pid ∉ rest.map CartItem.product_id := by
          intro hmem
          exact hpid (by simp [List.mem_map] at hmem ⊢; tauto)
        have hpid_ci : pid ≠ ci.product_id := by
          intro heq
          exact hpid (by simp [heq])
        rw [hother pid hpid_rest,
          findProduct_decStock_ne ps ci.product_id pid ci.quantity hpid_ci]

theorem processCart_head_error (ci : CartItem) (post : List CartItem)
    (ps : List Product) (total : ℚ) (items : List OrderItem) (e : ApiError)
    (hci : lineError ps ci = some e) :
    processCart (ci :: post) ps total items = .error e := by
  cases hfind : findProduct ps ci.product_id with
  | none =>
    simp only [lineError, hfind] at hci
    simp only [processCart, hfind]
    exact congrArg Except.error (Option.some.inj hci)
  | some p =>
    simp only [lineError, hfind] at hci
    simp only [processCart, hfind]
    by_cases hact : p.is_active = none
    · rw [if_pos hact] at hci
      rw [if_pos hact]
      exact congrArg Except.error (Option.some.inj hci)
    rw [if_neg hact] at hci
    rw [if_neg hact]
    by_cases hstk : p.stock < (ci.quantity : Int)
    · rw [if_pos hstk] at hci
      rw [if_pos hstk]
      exact congrArg Except.error (Option.some.inj hci)
    rw [if_neg hstk] at hci
    rw [if_neg hstk]
    cases hup : p.price with
    | none =>
      rw [hup] at hci
      rw [if_pos rfl] at hci
      exact congrArg Except.error (Option.some.inj hci)
    | some up =>
      rw [hup] at hci
      simp at hci

theorem processCart_first_error (pre : List CartItem) :
    ∀ (ci : CartItem) (post : List CartItem) (ps : List Product) (total : ℚ)
      (items : List OrderItem) (e : ApiError),
    ((pre ++ ci :: post).map CartItem.product_id).Nodup →
    (∀ cj ∈ pre, lineError ps cj = none) →
    lineError ps ci = some e →
    processCart (pre ++ ci :: post) ps total items = .error e := by
  induction pre with
  | nil =>
    intro ci post ps total items e _ _ hci
    simpa using processCart_head_error ci post ps total items e hci
  | cons cj pre ih =>
    intro ci post ps total items e hnodup hpre hci
    have hcj := hpre cj (List.mem_cons_self cj pre)
    cases hfind : findProduct ps cj.product_id with
    | none => simp [lineError, hfind] at hcj
    | some p =>
      simp only [lineError, hfind] at hcj
      by_cases hact : p.is_active = none
      · simp [hact] at hcj
      rw [if_neg hact] at hcj
      by_cases hstk : p.stock < (cj.quantity : Int)
      · simp [hstk] at hcj
      rw [if_neg hstk] at hcj
      cases hup : p.price with
      | none => simp [hup] at hcj
      | some up =>
        have hstep : processCart ((cj :: pre) ++ ci :: post) ps total items
            = processCart (pre ++ ci :: post)
                (decStock ps cj.product_id cj.quantity)
                (total + up * (cj.quantity : ℚ))
                (items ++ [⟨cj.product_id, cj.quantity, up, up * (cj.quantity : ℚ)⟩]) := by
          simp only [List.cons_append, processCart, hfind, hup]
          rw [if_neg hact, if_neg hstk]
          rfl
        rw [hstep]
        have hnodup0 := List.nodup_cons.mp
          (by simpa only [List.map_cons] using hnodup)
        have hne : ∀ ck ∈ pre ++ ci :: post, ck.product_id ≠ cj.product_id := by
          intro ck hck heq
          exact hnodup0.1 (heq ▸ List.mem_map_of_mem CartItem.product_id hck)
        have hfind_eq : ∀ ck ∈ pre ++ ci :: post,
            findProduct (decStock ps cj.product_id cj.quantity) ck.product_id
              = findProduct ps ck.product_id := by
          intro ck hck
          exact findProduct_decStock_ne ps cj.product_id ck.product_id cj.quantity
            (hne ck hck)
        apply ih
        · exact hnodup0.2
        · intro ck hck
          rw [lineError_congr _ ps ck
            (hfind_eq ck (List.mem_append_left _ hck))]
          exact hpre ck (List.mem_cons_of_mem cj hck)
        · rw [lineError_congr _ ps ci
            (hfind_eq ci (List.mem_append_right _ (List.mem_cons_self ci post)))]
          exact hci

theorem filter_ne_of_filter_eq_nil (l : List CartItem) (uid : Nat)
    (h : l.filter (fun ci => ci.user_id == uid) = []) :
    l.filter (fun ci => ci.user_id != uid) = l := by
  have hall := List.filter_eq_nil_iff.mp h
  exact List.filter_eq_self.mpr (fun a ha => by simpa using hall a ha)

theorem filter_user_after_delete (l : List CartItem) (uid : Nat) :
    (l.filter (fun ci => ci.user_id != uid)).filter
      (fun ci => ci.user_id == uid) = [] := by
  apply List.filter_eq_nil_iff.mpr
  intro a ha
  simpa using (List.mem_filter.mp ha).2

theorem findProduct_setRating (ps : List Product) (pid : Nat) (r : Option ℚ) :
    findProduct (setRating ps pid r) pid
      = (findProduct ps pid).map (fun p => { p with rating := r }) := by
  induction ps with
  | nil => rfl
  | cons p ps ih =>
    simp only [findProduct] at ih ⊢
    by_cases h : p.id = pid
    · simp only [setRating, List.map_cons,
        if_pos (show (p.id == pid) = true by simp [h])]
      rw [List.find?_cons_of_pos _ (by simp [h]), List.find?_cons_of_pos _ (by simp [h])]
      simp
    · simp only [setRating, List.map_cons,
        if_neg (show ¬ (p.id == pid) = true by simp [h])]
      rw [List.find?_cons_of_neg _ (by simp [h]), List.find?_cons_of_neg _ (by simp [h])]
      simpa [setRating] using ih

theorem rating_of_mem_setRating (ps : List Product) (pid : Nat) (r : Option ℚ)
    (q : Product) (hq : q ∈ setRating ps pid r) (hid : q.id = pid) :
    q.rating = r := by
  simp only [setRating, List.mem_map] at hq
  obtain ⟨p, hp, hfq⟩ := hq
  by_cases h : p.id = pid
  · simp only [if_pos (show (p.id == pid) = true by simp [h])] at hfq
    rw [← hfq]
  · simp only [if_neg (show ¬ (p.id == pid) = true by simp [h])] at hfq
    rw [← hfq] at hid
    exact absurd hid h

theorem findProduct_isSome_of_active (ps : List Product) (pid : Nat) (p : Product)
    (h : findActiveProduct ps pid = some p) : (findProduct ps pid).isSome := by
  have hmem : p ∈ ps := List.mem_of_find?_eq_some h
  have hpred := List.find?_some h
  have hid : (p.id == pid) = true := by
    simp only [Bool.and_eq_true] at hpred
    exact hpred.1
  rw [findProduct, List.find?_isSome]
  exact ⟨p, hmem, hid⟩

theorem avgGrade_map_round2 (reviews : List Review) (pid : Nat) :
    (avgGrade reviews pid).map round2
      = ratingFromGrades (activeGrades reviews pid) := by
  unfold avgGrade ratingFromGrades
  by_cases h : (activeGrades reviews pid).isEmpty
  · simp [h]
  · simp [h]

theorem bumpQuantity_length (l : List CartItem) (uid pid q : Nat) :
    (bumpQuantity l uid pid q).length = l.length := by
  induction l with
  | nil => rfl
  | cons ci cis ih =>
    by_cases h : (ci.user_id == uid && ci.product_id == pid) = true
    · simp [bumpQuantity, h]
    · simp [bumpQuantity, h, ih]

theorem bumpQuantity_filter (l : List CartItem) (uid pid q : Nat) (ci : CartItem)
    (h : l.filter (fun c => c.user_id == uid && c.product_id == pid) = [ci]) :
    (bumpQuantity l uid pid q).filter
        (fun c => c.user_id == uid && c.product_id == pid)
      = [{ ci with quantity := ci.quantity + q }] := by
  induction l with
  | nil => simp at h
  | cons c cs ih =>
    by_cases hc : (c.user_id == uid && c.product_id == pid) = true
    · rw [List.filter_cons, if_pos hc] at h
      obtain ⟨hc_eq, hcs⟩ := List.cons.inj h
      simp only [bumpQuantity, if_pos hc]
      rw [List.filter_cons, if_pos (show ((fun c : CartItem => c.user_id == uid && c.product_id == pid) { c with quantity := c.quantity + q }) = true by simpa using hc), hcs, hc_eq]
    · rw [List.filter_cons, if_neg hc] at h
      simp only [bumpQuantity, if_neg hc]
      rw [List.filter_cons, if_neg hc]
      exact ih h

theorem getCartItem_of_filter_singleton (l : List CartItem) (uid pid : Nat)
    (ci : CartItem)
    (h : l.filter (fun c => c.user_id == uid && c.product_id == pid) = [ci]) :
    getCartItem l uid pid = some ci := by
  induction l with
  | nil => simp at h
  | cons c cs ih =>
    by_cases hc : (c.user_id == uid && c.product_id == pid) = true
    · rw [List.filter_cons, if_pos hc] at h
      obtain ⟨hc_eq, _⟩ := List.cons.inj h
      rw [getCartItem]
      simp only [List.find?_cons, hc]
      exact congrArg some hc_eq
    · rw [List.filter_cons, if_neg hc] at h
      rw [getCartItem]
      simp only [Bool.not_eq_true] at hc
      simp only [List.find?_cons, hc]
      exact ih h

theorem checkout_order_def (uid : Nat) (s : State) :
    checkout_order uid s
      = match processCart (s.cart_items.filter (fun ci => ci.user_id == uid))
            s.products 0 [] with
        | .error e => .error e
        | .ok (ps, total_amount, items) =>
          .ok (⟨s.next_order_id, uid, total_amount, items⟩,
            { s with
              products := ps
              orders := s.orders ++ [⟨s.next_order_id, uid, total_amount, items⟩]
              cart_items := s.cart_items.filter (fun ci => ci.user_id != uid)
              next_order_id := s.next_order_id + 1 }) := rfl

theorem lineValid_lineError (ps : List Product) (ci : CartItem)
    (h : lineValid ps ci = true) : lineError ps ci = none := by
  cases hfind : findProduct ps ci.product_id with
  | none => rw [lineValid, hfind] at h; cases h
  | some p =>
    rw [lineValid, hfind] at h
    simp only [Bool.and_eq_true, beq_iff_eq, decide_eq_true_eq,
      Option.isSome_iff_ne_none] at h
    obtain ⟨⟨hact, hstk⟩, hpr⟩ := h
    simp only [lineError, hfind]
    rw [if_neg (show ¬ p.is_active = none by
        rw [hact]; exact fun hh => Option.noConfusion hh),
      if_neg (not_lt.mpr hstk), if_neg hpr]

/-! ## Claim theorems -/

/-- C1: for every cart whose lines (over pairwise-distinct products, as the
unique (user, product) constraint guarantees) all pass validation — product
exists and is active, stock covers the quantity, price set — checkout succeeds
with `total_amount` equal to the sum of `unit_price × quantity` over the lines,
and each referenced product's stock decreases by exactly its line's
quantity. -/
theorem checkout_valid_cart_total_and_stock (uid : Nat) (s : State)
    (hnodup : ((s.cart_items.filter (fun ci => ci.user_id == uid)).map
        CartItem.product_id).Nodup)
    (hvalid : ∀ ci ∈ s.cart_items.filter (fun ci => ci.user_id == uid),
        lineValid s.products ci = true) :
    ∃ o s', checkout_order uid s = .ok (o, s')
      ∧ o.total_amount
          = lineTotalSum s.products
              (s.cart_items.filter (fun ci => ci.user_id == uid))
      ∧ (∀ ci ∈ s.cart_items.filter (fun ci => ci.user_id == uid),
          findProduct s'.products ci.product_id
            = (findProduct s.products ci.product_id).map
                (fun p => { p with stock := p.stock - (ci.quantity : Int) })) := by
  have hok : ∀ ci ∈ s.cart_items.filter (fun ci => ci.user_id == uid),
      lineError s.products ci = none :=
    fun ci hci => lineValid_lineError s.products ci (hvalid ci hci)
  obtain ⟨ps', heq, hdec, _⟩ :=
    processCart_ok (s.cart_items.filter (fun ci => ci.user_id == uid))
      s.products 0 [] hnodup hok
  have hmain : checkout_order uid s
      = .ok (⟨s.next_order_id, uid,
          0 + lineTotalSum s.products
            (s.cart_items.filter (fun ci => ci.user_id == uid)),
          [] ++ orderItemsOf s.products
            (s.cart_items.filter (fun ci => ci.user_id == uid))⟩,
        { s with
          products := ps'
          orders := s.orders ++ [⟨s.next_order_id, uid,
            0 + lineTotalSum s.products
              (s.cart_items.filter (fun ci => ci.user_id == uid)),
            [] ++ orderItemsOf s.products
              (s.cart_items.filter (fun ci => ci.user_id == uid))⟩]
          cart_items := s.cart_items.filter (fun ci => ci.user_id != uid)
          next_order_id := s.next_order_id + 1 }) := by
    rw [checkout_order_def, heq]
  exact ⟨_, _, hmain, by simp, fun ci hci => hdec ci hci⟩

/-- Witness for C1 at the spec's worked example: user 7's cart holds A×2 at
price 10.00 and B×1 at price 5.50; checkout succeeds and the computed
line-total sum is 25.50. -/
theorem checkout_valid_cart_total_and_stock_witness :
    (((exState.cart_items.filter (fun ci => ci.user_id == 7)).map
        CartItem.product_id).Nodup
      ∧ (∀ ci ∈ exState.cart_items.filter (fun ci => ci.user_id == 7),
          lineValid exState.products ci = true)
      ∧ lineTotalSum exState.products
          (exState.cart_items.filter (fun ci => ci.user_id == 7)) = 51 / 2)
    ∧ ∃ o s', checkout_order 7 exState = .ok (o, s')
      ∧ o.total_amount
          = lineTotalSum exState.products
              (exState.cart_items.filter (fun ci => ci.user_id == 7))
      ∧ (∀ ci ∈ exState.cart_items.filter (fun ci => ci.user_id == 7),
          findProduct s'.products ci.product_id
            = (findProduct exState.products ci.product_id).map
                (fun p => { p with stock := p.stock - (ci.quantity : Int) })) :=
  ⟨⟨by decide, by decide, by
      norm_num [lineTotalSum, unitPriceOf, findProduct, exState,
        productA, productB]⟩,
    checkout_valid_cart_total_and_stock 7 exState (by decide) (by decide)⟩

/-- C2 counterexample: in `precedenceState` the cart's second line asks
for 3 units of product B although only 1 is in stock, yet checkout fails with
the (first line's) `priceMissing` error, not with `insufficientStock` — the
per-line validation of orders.py stops at the first failing line. -/
theorem checkout_insufficient_stock_cex :
    (∃ ci ∈ precedenceState.cart_items.filter (fun c => c.user_id == 7),
        ∃ p, findProduct precedenceState.products ci.product_id = some p
          ∧ p.stock < (ci.quantity : Int))
      ∧ checkout_order 7 precedenceState = .error (.priceMissing "A")
      ∧ ∀ name, checkout_order 7 precedenceState
          ≠ .error (.insufficientStock name) := by
  refine ⟨⟨⟨11, 7, 2, 3⟩, by decide,
      ⟨2, "B", some 5, 1, some true, none, none⟩, by decide, by decide⟩,
    rfl, ?_⟩
  intro name h
  rw [show checkout_order 7 precedenceState = .error (.priceMissing "A")
    from rfl] at h
  simp at h

/-- C2 (amended): for every cart over pairwise-distinct products in which
every line before the first failing one passes validation, if that first
failing line's product exists with its active flag set but its quantity
exceeds the current stock, then checkout fails with `InsufficientStock`
naming that product, and the database state — every product's stock, every
cart row, every order — is exactly as before the call. -/
theorem checkout_insufficient_stock_atomic (uid : Nat) (s : State)
    (pre post : List CartItem) (ci : CartItem) (p : Product)
    (hsplit : s.cart_items.filter (fun c => c.user_id == uid)
        = pre ++ ci :: post)
    (hnodup : ((s.cart_items.filter (fun c => c.user_id == uid)).map
        CartItem.product_id).Nodup)
    (hpre : ∀ cj ∈ pre, lineError s.products cj = none)
    (hfind : findProduct s.products ci.product_id = some p)
    (hactive : p.is_active ≠ none)
    (hstock : p.stock < (ci.quantity : Int)) :
    checkout_order uid s = .error (ApiError.insufficientStock p.name)
      ∧ checkoutState uid s = s := by
  have hci : lineError s.products ci = some (.insufficientStock p.name) := by
    simp only [lineError, hfind]
    rw [if_neg hactive, if_pos hstock]
  have herr := processCart_first_error pre ci post s.products 0 []
    (.insufficientStock p.name) (hsplit ▸ hnodup) hpre hci
  have h1 : checkout_order uid s = .error (.insufficientStock p.name) := by
    rw [checkout_order_def, hsplit, herr]
  exact ⟨h1, by simp only [checkoutState, h1]⟩

/-- Witness for the amended C2 at the spec's example: product A has stock 1,
user 7's single-line cart asks for quantity 3; checkout fails with
`insufficientStock "A"` and the state is unchanged. -/
theorem checkout_insufficient_stock_atomic_witness :
    (lowStockState.cart_items.filter (fun c => c.user_id == 7)
        = [] ++ ⟨10, 7, 1, 3⟩ :: []
      ∧ findProduct lowStockState.products 1 = some lowStockProduct
      ∧ lowStockProduct.stock < ((3 : Nat) : Int))
    ∧ checkout_order 7 lowStockState
        = .error (ApiError.insufficientStock lowStockProduct.name)
      ∧ checkoutState 7 lowStockState = lowStockState :=
  ⟨⟨by decide, by decide, by decide⟩,
    checkout_insufficient_stock_atomic 7 lowStockState [] [] ⟨10, 7, 1, 3⟩
      lowStockProduct (by decide) (by decide) (by decide) (by decide)
      (by decide) (by decide)⟩

/-- C3 (documents the code bug): for every user whose cart has zero
items, `checkout_order` does *not* fail with the EmptyCart error — the guard
`cart_items is None` on orders.py line 38 is dead because `Result.all()`
returns a list — and instead a zero-total order with no items is created and
committed, while products and cart rows stay untouched. -/
theorem checkout_empty_cart_creates_zero_order (uid : Nat) (s : State)
    (hempty : s.cart_items.filter (fun ci => ci.user_id == uid) = []) :
    checkout_order uid s
      = .ok (⟨s.next_order_id, uid, 0, []⟩,
          { s with
            orders := s.orders ++ [⟨s.next_order_id, uid, 0, []⟩]
            next_order_id := s.next_order_id + 1 }) := by
  rw [checkout_order_def, hempty]
  simp only [processCart]
  rw [filter_ne_of_filter_eq_nil s.cart_items uid hempty]

/-- Witness for C3: user 8 has no cart lines in the example state, yet
checkout succeeds with an empty order instead of raising EmptyCart. -/
theorem checkout_empty_cart_creates_zero_order_witness :
    exState.cart_items.filter (fun ci => ci.user_id == 8) = []
      ∧ checkout_order 8 exState
          = .ok (⟨exState.next_order_id, 8, 0, []⟩,
              { exState with
                orders := exState.orders ++ [⟨exState.next_order_id, 8, 0, []⟩]
                next_order_id := exState.next_order_id + 1 }) :=
  ⟨by decide, checkout_empty_cart_creates_zero_order 8 exState (by decide)⟩

/-- C4 (documents the code bug): a cart line whose product has
`is_active = FALSE` (deactivated) passes the availability check of orders.py
line 46 — the code tests `is_active is None`, not falsity — so checkout
*succeeds* and even decrements the deactivated product's stock, instead of
failing with `ProductUnavailable`. -/
theorem checkout_accepts_inactive_product (uid : Nat) (s : State)
    (ci : CartItem) (p : Product)
    (hcart : s.cart_items.filter (fun c => c.user_id == uid) = [ci])
    (hfind : findProduct s.products ci.product_id = some p)
    (hinactive : p.is_active = some false)
    (hstock : (ci.quantity : Int) ≤ p.stock)
    (hprice : p.price.isSome) :
    ∃ o s', checkout_order uid s = .ok (o, s')
      ∧ findProduct s'.products ci.product_id
          = some { p with stock := p.stock - (ci.quantity : Int) } := by
  obtain ⟨up, hup⟩ := Option.isSome_iff_exists.mp hprice
  have hstep : processCart [ci] s.products 0 []
      = .ok (decStock s.products ci.product_id ci.quantity,
          0 + up * (ci.quantity : ℚ),
          [] ++ [⟨ci.product_id, ci.quantity, up, up * (ci.quantity : ℚ)⟩]) := by
    simp only [processCart, hfind, hup]
    rw [if_neg (show ¬ p.is_active = none by
        rw [hinactive]; exact fun hh => Option.noConfusion hh),
      if_neg (not_lt.mpr hstock)]
  have hmain : checkout_order uid s
      = .ok (⟨s.next_order_id, uid, 0 + up * (ci.quantity : ℚ),
          [] ++ [⟨ci.product_id, ci.quantity, up, up * (ci.quantity : ℚ)⟩]⟩,
        { s with
          products := decStock s.products ci.product_id ci.quantity
          orders := s.orders ++ [⟨s.next_order_id, uid,
            0 + up * (ci.quantity : ℚ),
            [] ++ [⟨ci.product_id, ci.quantity, up, up * (ci.quantity : ℚ)⟩]⟩]
          cart_items := s.cart_items.filter (fun c => c.user_id != uid)
          next_order_id := s.next_order_id + 1 }) := by
    rw [checkout_order_def, hcart, hstep]
  refine ⟨_, _, hmain, ?_⟩
  rw [show ({ s with
      products := decStock s.products ci.product_id ci.quantity
      orders := s.orders ++ [⟨s.next_order_id, uid,
        0 + up * (ci.quantity : ℚ),
        [] ++ [⟨ci.product_id, ci.quantity, up, up * (ci.quantity : ℚ)⟩]⟩]
      cart_items := s.cart_items.filter (fun c => c.user_id != uid)
      next_order_id := s.next_order_id + 1 } : State).products
    = decStock s.products ci.product_id ci.quantity from rfl]
  rw [findProduct_decStock_self, hfind]
  simp

/-- Witness for C4: product A is deactivated (`is_active = FALSE`) with
stock 5 and price 10, user 7's cart asks for 2; checkout succeeds and leaves
the inactive product with stock 3. -/
theorem checkout_accepts_inactive_product_witness :
    (inactiveState.cart_items.filter (fun c => c.user_id == 7) = [⟨10, 7, 1, 2⟩]
      ∧ findProduct inactiveState.products 1 = some inactiveProduct
      ∧ inactiveProduct.is_active = some false
      ∧ (((2 : Nat)) : Int) ≤ inactiveProduct.stock
      ∧ inactiveProduct.price.isSome)
    ∧ ∃ o s', checkout_order 7 inactiveState = .ok (o, s')
      ∧ findProduct s'.products 1
          = some { inactiveProduct with
              stock := inactiveProduct.stock - ((2 : Nat) : Int) } :=
  ⟨⟨by decide, by decide, by decide, by decide, by decide⟩,
    checkout_accepts_inactive_product 7 inactiveState ⟨10, 7, 1, 2⟩
      inactiveProduct (by decide) (by decide) (by decide) (by decide)
      (by decide)⟩

/-- C5: (a) every successful checkout over valid, pairwise-distinct lines
produces exactly the order items of `orderItemsOf`: each line's `unit_price`
is the product's price in the *pre-checkout* state (a value copied into the
order item, hence untouched by any later catalog change) and its
`total_price` is `unit_price × quantity`; (b) if the first failing line's
product exists, has its active flag set and enough stock but no price, the
whole checkout fails with `PriceMissing` naming it, leaving the state
unchanged. -/
theorem order_items_snapshot_price (uid : Nat) (s : State) :
    (((s.cart_items.filter (fun ci => ci.user_id == uid)).map
          CartItem.product_id).Nodup →
      (∀ ci ∈ s.cart_items.filter (fun ci => ci.user_id == uid),
          lineValid s.products ci = true) →
      ∃ o s', checkout_order uid s = .ok (o, s')
        ∧ o.items = orderItemsOf s.products
            (s.cart_items.filter (fun ci => ci.user_id == uid))
        ∧ ∀ it ∈ o.items, it.total_price = it.unit_price * (it.quantity : ℚ))
    ∧ (∀ (pre post : List CartItem) (ci : CartItem) (p : Product),
      s.cart_items.filter (fun c => c.user_id == uid) = pre ++ ci :: post →
      ((s.cart_items.filter (fun c => c.user_id == uid)).map
          CartItem.product_id).Nodup →
      (∀ cj ∈ pre, lineError s.products cj = none) →
      findProduct s.products ci.product_id = some p →
      p.is_active ≠ none →
      ¬ p.stock < (ci.quantity : Int) →
      p.price = none →
      checkout_order uid s = .error (ApiError.priceMissing p.name)
        ∧ checkoutState uid s = s) := by
  constructor
  · intro hnodup hvalid
    have hok : ∀ ci ∈ s.cart_items.filter (fun ci => ci.user_id == uid),
        lineError s.products ci = none :=
      fun ci hci => lineValid_lineError s.products ci (hvalid ci hci)
    obtain ⟨ps', heq, _, _⟩ :=
      processCart_ok (s.cart_items.filter (fun ci => ci.user_id == uid))
        s.products 0 [] hnodup hok
    have hmain : checkout_order uid s
        = .ok (⟨s.next_order_id, uid,
            0 + lineTotalSum s.products
              (s.cart_items.filter (fun ci => ci.user_id == uid)),
            [] ++ orderItemsOf s.products
              (s.cart_items.filter (fun ci => ci.user_id == uid))⟩,
          { s with
            products := ps'
            orders := s.orders ++ [⟨s.next_order_id, uid,
              0 + lineTotalSum s.products
                (s.cart_items.filter (fun ci => ci.user_id == uid)),
              [] ++ orderItemsOf s.products
                (s.cart_items.filter (fun ci => ci.user_id == uid))⟩]
            cart_items := s.cart_items.filter (fun ci => ci.user_id != uid)
            next_order_id := s.next_order_id + 1 }) := by
      rw [checkout_order_def, heq]
    refine ⟨_, _, hmain, by simp, ?_⟩
    intro it hit
    simp only [List.nil_append, orderItemsOf, List.mem_map] at hit
    obtain ⟨ci, _, hci⟩ := hit
    rw [← hci]
  · intro pre post ci p hsplit hnodup hpre hfind hactive hstock hprice
    have hci : lineError s.products ci = some (.priceMissing p.name) := by
      simp only [lineError, hfind]
      rw [if_neg hactive, if_neg hstock, if_pos hprice]
    have herr := processCart_first_error pre ci post s.products 0 []
      (.priceMissing p.name) (hsplit ▸ hnodup) hpre hci
    have h1 : checkout_order uid s = .error (.priceMissing p.name) := by
      rw [checkout_order_def, hsplit, herr]
    exact ⟨h1, by simp only [checkoutState, h1]⟩

/-- Witness for C5: part (a) at the spec's two-line example, part (b) at the
cart whose first line's product A has no price set. -/
theorem order_items_snapshot_price_witness :
    ((((exState.cart_items.filter (fun ci => ci.user_id == 7)).map
          CartItem.product_id).Nodup
        ∧ ∀ ci ∈ exState.cart_items.filter (fun ci => ci.user_id == 7),
            lineValid exState.products ci = true)
      ∧ ∃ o s', checkout_order 7 exState = .ok (o, s')
          ∧ o.items = orderItemsOf exState.products
              (exState.cart_items.filter (fun ci => ci.user_id == 7))
          ∧ ∀ it ∈ o.items, it.total_price = it.unit_price * (it.quantity : ℚ))
    ∧ ((precedenceState.cart_items.filter (fun c => c.user_id == 7)
          = [] ++ ⟨10, 7, 1, 1⟩ :: [⟨11, 7, 2, 3⟩]
        ∧ findProduct precedenceState.products 1
            = some ⟨1, "A", none, 10, some true, none, none⟩)
      ∧ checkout_order 7 precedenceState = .error (ApiError.priceMissing "A")
        ∧ checkoutState 7 precedenceState = precedenceState) :=
  ⟨⟨⟨by decide, by decide⟩,
      (order_items_snapshot_price 7 exState).1 (by decide) (by decide)⟩,
    ⟨⟨by decide, by decide⟩,
      (order_items_snapshot_price 7 precedenceState).2 []
        [⟨11, 7, 2, 3⟩] ⟨10, 7, 1, 1⟩ ⟨1, "A", none, 10, some true, none, none⟩
        (by decide) (by decide) (by decide) (by decide) (by decide) (by decide)
        (by decide)⟩⟩

/-- C6: after every successful checkout the user has zero cart rows —
`checkout_order` deletes them all before committing — and re-listing the cart
with `get_carts` returns an empty item list with zero totals. -/
theorem checkout_clears_cart (uid : Nat) (s : State) (o : Order) (s' : State)
    (h : checkout_order uid s = .ok (o, s')) :
    s'.cart_items.filter (fun ci => ci.user_id == uid) = []
      ∧ (get_carts uid s').items = []
      ∧ (get_carts uid s').total_quantity = 0
      ∧ (get_carts uid s').total_price = 0 := by
  have hci : s'.cart_items
      = s.cart_items.filter (fun ci => ci.user_id != uid) := by
    rw [checkout_order_def] at h
    split at h
    · simp at h
    · injection h with h
      injection h with ho hs
      rw [← hs]
  have hfilter : s'.cart_items.filter (fun ci => ci.user_id == uid) = [] := by
    rw [hci]
    exact filter_user_after_delete s.cart_items uid
  refine ⟨hfilter, ?_, ?_, ?_⟩
  · simp only [get_carts]
    rw [hfilter]
  · simp only [get_carts]
    rw [hfilter]
    rfl
  · simp only [get_carts]
    rw [hfilter]
    rfl

/-- Witness for C6: user 7 checks out the one-line cart (A×1 at price 10);
afterwards the cart filter, the re-listed items, and both totals are empty. -/
theorem checkout_clears_cart_witness :
    checkout_order 7 oneLineState
        = .ok (checkoutOrderOf 7 oneLineState, checkoutState 7 oneLineState)
      ∧ ((checkoutState 7 oneLineState).cart_items.filter
            (fun ci => ci.user_id == 7) = []
        ∧ (get_carts 7 (checkoutState 7 oneLineState)).items = []
        ∧ (get_carts 7 (checkoutState 7 oneLineState)).total_quantity = 0
        ∧ (get_carts 7 (checkoutState 7 oneLineState)).total_price = 0) :=
  ⟨rfl,
    checkout_clears_cart 7 oneLineState (checkoutOrderOf 7 oneLineState)
      (checkoutState 7 oneLineState) rfl⟩

/-- C7: after every successful review creation the product's rating equals
the arithmetic mean of the grades of its active reviews (the new one
included), rounded to two decimals; after every successful soft-deletion the
deleted review's product carries the mean of the remaining active grades,
rounded to two decimals, or no rating at all when none remain
(`ratingFromGrades` returns `none` exactly on the empty grade list). -/
theorem review_mutations_recompute_rating :
    (∀ (uid : Nat) (role : String) (pid : Nat) (grade : Int)
        (comment : Option String) (s : State) (r : Review) (s' : State),
      create_review uid role pid grade comment s = .ok (r, s') →
      ∃ q, findProduct s'.products pid = some q
        ∧ q.rating = ratingFromGrades (activeGrades s'.reviews pid))
    ∧ (∀ (role : String) (rid : Nat) (s : State) (s' : State),
      delete_review role rid s = .ok s' →
      ∃ review, s.reviews.find? (fun v => v.id == rid && v.is_active)
          = some review
        ∧ ∀ q ∈ s'.products, q.id = review.product_id →
            q.rating = ratingFromGrades
              (activeGrades s'.reviews review.product_id)) := by
  constructor
  · intro uid role pid grade comment s r s' h
    simp only [create_review] at h
    split at h
    · simp at h
    · split at h
      · simp at h
      · rename_i p hfa
        injection h with h
        injection h with hr hs
        have hps : s'.products
            = setRating s.products pid
                ((avgGrade (s.reviews
                    ++ [⟨s.next_review_id, uid, pid, grade, comment, true⟩])
                  pid).map round2) := by
          rw [← hs]
          rfl
        have hrs : s'.reviews
            = s.reviews ++ [⟨s.next_review_id, uid, pid, grade, comment, true⟩] := by
          rw [← hs]
        obtain ⟨q0, hq0⟩ := Option.isSome_iff_exists.mp
          (findProduct_isSome_of_active s.products pid p hfa)
        refine ⟨{ q0 with
            rating := (avgGrade s'.reviews pid).map round2 }, ?_, ?_⟩
        · rw [hps, findProduct_setRating, hq0, hrs]
          rfl
        · rw [show ({ q0 with
              rating := (avgGrade s'.reviews pid).map round2 } : Product).rating
              = (avgGrade s'.reviews pid).map round2 from rfl]
          exact avgGrade_map_round2 s'.reviews pid
  · intro role rid s s' h
    simp only [delete_review] at h
    split at h
    · simp at h
    · split at h
      · simp at h
      · rename_i review hfr
        injection h with hs
        have hps : s'.products
            = setRating s.products review.product_id
                ((avgGrade (softDeleteReview s.reviews rid)
                  review.product_id).map round2) := by
          rw [← hs]
          rfl
        have hrs : s'.reviews = softDeleteReview s.reviews rid := by
          rw [← hs]
        refine ⟨review, hfr, ?_⟩
        intro q hq hid
        rw [← avgGrade_map_round2]
        rw [rating_of_mem_setRating s.products review.product_id _ q
          (hps ▸ hq) hid, hrs]

/-- Witness for C7: buyer 9 posts a grade-5 review on product A (which already
carries one active grade-4 review), and admin deletes review 1; both calls
succeed and the recomputed ratings obey the mean formula. -/
theorem review_mutations_recompute_rating_witness :
    (create_review 9 "buyer" 1 5 none reviewState
        = .ok (createdReviewOf 9 "buyer" 1 5 none reviewState,
            createReviewState 9 "buyer" 1 5 none reviewState)
      ∧ ∃ q, findProduct
            (createReviewState 9 "buyer" 1 5 none reviewState).products 1
            = some q
          ∧ q.rating = ratingFromGrades
              (activeGrades
                (createReviewState 9 "buyer" 1 5 none reviewState).reviews 1))
    ∧ (delete_review "admin" 1 reviewState
        = .ok (deleteReviewState "admin" 1 reviewState)
      ∧ ∃ review, reviewState.reviews.find?
            (fun v => v.id == 1 && v.is_active) = some review
          ∧ ∀ q ∈ (deleteReviewState "admin" 1 reviewState).products,
              q.id = review.product_id →
              q.rating = ratingFromGrades
                (activeGrades (deleteReviewState "admin" 1 reviewState).reviews
                  review.product_id)) :=
  ⟨⟨rfl, review_mutations_recompute_rating.1 9 "buyer" 1 5 none reviewState
      _ _ rfl⟩,
    ⟨rfl, review_mutations_recompute_rating.2 "admin" 1 reviewState _ rfl⟩⟩

/-- C8: cart add is idempotent-additive — when the (unique, by the
(user, product) constraint) cart line for an available product already
exists, `add_item_to_cart` returns that line with its quantity incremented by
the added amount, the row count is unchanged (no duplicate row), and the
(user, product) filter still yields exactly one line. -/
theorem add_item_to_cart_increments_existing (uid pid qty : Nat) (s : State)
    (ci : CartItem)
    (havail : (findActiveProduct s.products pid).isSome)
    (hline : s.cart_items.filter
        (fun c => c.user_id == uid && c.product_id == pid) = [ci]) :
    ∃ s', add_item_to_cart uid pid qty s
        = .ok (some { ci with quantity := ci.quantity + qty }, s')
      ∧ s'.cart_items.filter (fun c => c.user_id == uid && c.product_id == pid)
          = [{ ci with quantity := ci.quantity + qty }]
      ∧ s'.cart_items.length = s.cart_items.length := by
  obtain ⟨p, hp⟩ := Option.isSome_iff_exists.mp havail
  have hget : getCartItem s.cart_items uid pid = some ci :=
    getCartItem_of_filter_singleton s.cart_items uid pid ci hline
  have hbumpfilter := bumpQuantity_filter s.cart_items uid pid qty ci hline
  have hget' : getCartItem (bumpQuantity s.cart_items uid pid qty) uid pid
      = some { ci with quantity := ci.quantity + qty } :=
    getCartItem_of_filter_singleton _ uid pid _ hbumpfilter
  refine ⟨{ s with cart_items := bumpQuantity s.cart_items uid pid qty },
    ?_, hbumpfilter, bumpQuantity_length s.cart_items uid pid qty⟩
  simp only [add_item_to_cart, ensureProductAvailable, hp, hget, hget']

/-- Witness for C8: starting from an empty cart, user 7 adds product 1 with
quantity 1 twice; the first add inserts row 20, and the theorem applied to
the resulting state shows the second add yields exactly one line with
quantity 2 and no extra row. -/
theorem add_item_to_cart_increments_existing_witness :
    (add_item_to_cart 7 1 1 cartAddState
        = .ok (addedItemOf 7 1 1 cartAddState, addItemState 7 1 1 cartAddState)
      ∧ addedItemOf 7 1 1 cartAddState = some ⟨20, 7, 1, 1⟩
      ∧ (findActiveProduct (addItemState 7 1 1 cartAddState).products 1).isSome
      ∧ (addItemState 7 1 1 cartAddState).cart_items.filter
          (fun c => c.user_id == 7 && c.product_id == 1) = [⟨20, 7, 1, 1⟩])
    ∧ ∃ s', add_item_to_cart 7 1 1 (addItemState 7 1 1 cartAddState)
        = .ok (some { (⟨20, 7, 1, 1⟩ : CartItem) with quantity := 1 + 1 }, s')
      ∧ s'.cart_items.filter (fun c => c.user_id == 7 && c.product_id == 1)
          = [{ (⟨20, 7, 1, 1⟩ : CartItem) with quantity := 1 + 1 }]
      ∧ s'.cart_items.length
          = (addItemState 7 1 1 cartAddState).cart_items.length :=
  ⟨⟨rfl, by decide, by decide, by decide⟩,
    add_item_to_cart_increments_existing 7 1 1 (addItemState 7 1 1 cartAddState)
      ⟨20, 7, 1, 1⟩ (by decide) (by decide)⟩

/-- C9: review operations enforce roles — any authenticated user whose
role is not "buyer" gets Forbidden from `create_review`, and any whose role
is not "admin" gets Forbidden from `delete_review`; in both cases the role
check fires before any query or write, so the database state is unchanged. -/
theorem review_role_checks_forbidden :
    (∀ (uid : Nat) (role : String) (pid : Nat) (grade : Int)
        (comment : Option String) (s : State),
      role ≠ "buyer" →
      create_review uid role pid grade comment s = .error .forbidden
        ∧ createReviewState uid role pid grade comment s = s)
    ∧ (∀ (role : String) (rid : Nat) (s : State),
      role ≠ "admin" →
      delete_review role rid s = .error .forbidden
        ∧ deleteReviewState role rid s = s) := by
  constructor
  · intro uid role pid grade comment s hrole
    have h : create_review uid role pid grade comment s = .error .forbidden := by
      rw [create_review, if_pos hrole]
    exact ⟨h, by simp only [createReviewState, h]⟩
  · intro role rid s hrole
    have h : delete_review role rid s = .error .forbidden := by
      rw [delete_review, if_pos hrole]
    exact ⟨h, by simp only [deleteReviewState, h]⟩

/-- Witness for C9: a "seller" cannot create a review and a "buyer" cannot
delete one; both calls return Forbidden and leave the state unchanged. -/
theorem review_role_checks_forbidden_witness :
    (("seller" : String) ≠ "buyer"
      ∧ create_review 9 "seller" 1 5 none reviewState = .error .forbidden
      ∧ createReviewState 9 "seller" 1 5 none reviewState = reviewState)
    ∧ (("buyer" : String) ≠ "admin"
      ∧ delete_review "buyer" 1 reviewState = .error .forbidden
      ∧ deleteReviewState "buyer" 1 reviewState = reviewState) :=
  ⟨⟨by decide,
      review_role_checks_forbidden.1 9 "seller" 1 5 none reviewState (by decide)⟩,
    ⟨by decide,
      review_role_checks_forbidden.2 "buyer" 1 reviewState (by decide)⟩⟩

/-- C10: the single-product detail endpoint filters on `stock > 0` in
addition to `is_active`, so a product whose rows with the requested id all
have zero stock is reported NotFound even when it exists and is active. -/
theorem get_product_zero_stock_not_found (pid : Nat) (s : State)
    (hzero : ∀ p ∈ s.products, p.id = pid → p.stock = 0)
    (_hactive : ∃ p ∈ s.products, p.id = pid ∧ p.is_active = some true) :
    get_product pid s = .error ApiError.notFound := by
  have hnone : s.products.find? (fun p =>
      p.id == pid && p.is_active == some true
        && decide ((0 : Int) < p.stock)) = none := by
    apply List.find?_eq_none.mpr
    intro p hp
    intro hcontra
    simp only [Bool.and_eq_true, beq_iff_eq, decide_eq_true_eq] at hcontra
    obtain ⟨⟨hid, _⟩, hpos⟩ := hcontra
    rw [hzero p hp hid] at hpos
    exact lt_irrefl 0 hpos
  rw [get_product]
  rw [hnone]

/-- Witness for C10: product 1 exists, is active, and has stock 0 in
`zeroStockState`; the detail lookup returns NotFound. -/
theorem get_product_zero_stock_not_found_witness :
    ((∀ p ∈ zeroStockState.products, p.id = 1 → p.stock = 0)
      ∧ ∃ p ∈ zeroStockState.products, p.id = 1 ∧ p.is_active = some true)
    ∧ get_product 1 zeroStockState = .error ApiError.notFound :=
  ⟨⟨by decide, by decide⟩,
    get_product_zero_stock_not_found 1 zeroStockState (by decide) (by decide)⟩
